import Mathlib

/-!
# Listener filter chains of the in-mesh listener builder (`pkg/envoy/lds/inmesh.go`)

A shallow embedding of the three builders of `inmesh.go`:

* `getInboundInMeshFilterChain`
* `listenerBuilder.getOutboundHTTPFilter`
* `listenerBuilder.getOutboundHTTPFilterChainMatchForService`

Conventions of the embedding.

* A Go pointer result is an `Option` (`nil` is `none`); a Go `error` is an
  `Option Error` (`nil` is `none`).  A Go `(value, error)` result is the pair of the
  two, so that "value and error both present" or "both absent" stay expressible.
* A Go slice is a `List`; the `nil` slice and the empty slice are both `[]`
  (the file only ever takes `len` of a slice, ranges over it, or appends to it).
* The `log.Error()` / `log.Info()` calls write to the logger only and are left out.
* Identifiers of other packages that the file refers to (constants of `route`,
  `wellknown` and `envoy`, `MeshService.ServerName`, `envoy.GetDownstreamTLSContext`,
  `getHTTPConnectionManager`, `ptypes.MarshalAny`) are the fields of `Externals`:
  every theorem holds for all values of them.
-/

namespace lds

/-! ## Data model -/

/-- Go `byte`. -/
abbrev byte := Fin 256

/-- Go `net.IP`, declared `type IP []byte`. -/
abbrev IP := List byte

/-- A Go `error` value that is not `nil`. -/
structure Error where
  msg : String
deriving DecidableEq, Repr

/-- The message `any.Any` of `github.com/golang/protobuf/ptypes/any`. -/
structure Any where
  TypeUrl : String
  Value : List byte
deriving DecidableEq, Repr

/-- The message `wrapperspb.UInt32Value`. -/
structure UInt32Value where
  Value : Nat
deriving DecidableEq, Repr

/-- The message `xds_core.CidrRange`. -/
structure CidrRange where
  AddressPrefix : String
  PrefixLen : Option UInt32Value
deriving DecidableEq, Repr

/-- The fields of `xds_listener.FilterChainMatch` that `inmesh.go` sets; a field the
file leaves out of a composite literal has Go's zero value. -/
structure FilterChainMatch where
  PrefixRanges : List CidrRange := []
  ServerNames : List String := []
  TransportProtocol : String := ""
  ApplicationProtocols : List String := []
deriving DecidableEq, Repr

/-- The message `xds_listener.Filter`; `TypedConfig` is the payload of the
`Filter_TypedConfig` case of its `ConfigType`. -/
structure Filter where
  Name : String
  TypedConfig : Option Any
deriving DecidableEq, Repr

/-- The message `xds_core.TransportSocket`; `TypedConfig` is the payload of the
`TransportSocket_TypedConfig` case of its `ConfigType`. -/
structure TransportSocket where
  Name : String
  TypedConfig : Option Any
deriving DecidableEq, Repr

/-- The fields of `xds_listener.FilterChain` that `inmesh.go` sets. -/
structure FilterChain where
  Name : String
  Filters : List Filter
  FilterChainMatch : Option FilterChainMatch
  TransportSocket : Option TransportSocket
deriving DecidableEq, Repr

/-- An `endpoint.Endpoint`; `inmesh.go` reads its `IP` field only. -/
structure Endpoint where
  IP : IP
deriving DecidableEq, Repr

/-- What `inmesh.go` takes from other packages.  `MeshService` stands for
`service.MeshService`, `Configurator` for `configurator.Configurator` and `Message`
for `proto.Message`, the argument type of `ptypes.MarshalAny`. -/
structure Externals (MeshService Configurator Message : Type) where
  /-- The constant `route.InboundRouteConfigName`. -/
  InboundRouteConfigName : String
  /-- The constant `route.OutboundRouteConfigName`. -/
  OutboundRouteConfigName : String
  /-- The constant `wellknown.HTTPConnectionManager`. -/
  HTTPConnectionManager : String
  /-- The constant `wellknown.TransportSocketTls`. -/
  TransportSocketTls : String
  /-- The constant `envoy.TransportProtocolTLS`. -/
  TransportProtocolTLS : String
  /-- The variable `envoy.ALPNInMesh`. -/
  ALPNInMesh : List String
  /-- The method `service.MeshService.ServerName`. -/
  ServerName : MeshService → String
  /-- The function `envoy.GetDownstreamTLSContext`; the flag is its `mTLS` argument. -/
  GetDownstreamTLSContext : MeshService → Bool → Message
  /-- The function `getHTTPConnectionManager` of package `lds`. -/
  getHTTPConnectionManager : String → Configurator → Message
  /-- The function `ptypes.MarshalAny`. -/
  MarshalAny : Message → Option Any × Option Error

/-- The one method of `catalog.MeshCataloger` that `inmesh.go` calls: the endpoint
resolver, returning a slice of endpoints and an error. -/
structure MeshCataloger (MeshService : Type) where
  GetResolvableServiceEndpoints : MeshService → List Endpoint × Option Error

/-- The fields of `listenerBuilder` that `inmesh.go` reads. -/
structure listenerBuilder (MeshService Configurator : Type) where
  meshCatalog : MeshCataloger MeshService
  cfg : Configurator

/-! ## Constants of package `lds` -/

/-- The constant `inboundMeshFilterChainName`. -/
def inboundMeshFilterChainName : String := "inbound-mesh-filter-chain"

/-- The variable `supportedDownstreamHTTPProtocols`. -/
def supportedDownstreamHTTPProtocols : List String := ["http/1.0", "http/1.1", "h2c"]

/-- Modelled from the spec: the constant `singleIpv4Mask` is declared in another file
of package `lds`; the spec fixes the prefix length of every emitted range at 32. -/
def singleIpv4Mask : Nat := 32

/-! ## `net.IP.String` of the Go standard library -/

/-- The constant `net.IPv4len`. -/
def IPv4len : Nat := 4

/-- The constant `net.IPv6len`. -/
def IPv6len : Nat := 16

/-- The byte at index `i` of a slice (every use below is within bounds). -/
def byteAt (p : List byte) (i : Nat) : Nat := (p.getD i 0).val

/-- The byte `hexDigit[n]` for the constant `hexDigit = "0123456789abcdef"`. -/
def hexDigit (n : Nat) : Char := ['0', '1', '2', '3', '4', '5', '6', '7', '8', '9',
  'a', 'b', 'c', 'd', 'e', 'f'].getD n '0'

/-- Go `net.isZeros`: every byte of the slice is zero. -/
def isZeros (p : List byte) : Bool := p.all (fun b => b.val == 0)

/-- Go `net.IP.To4`: the 4-byte form of an IPv4 address, `nil` for anything else. -/
def IP.To4 (ip : IP) : IP :=
  if ip.length = IPv4len then ip
  else if ip.length = IPv6len ∧ isZeros (ip.take 10) = true ∧ byteAt ip 10 = 0xff ∧ byteAt ip 11 = 0xff then
    (ip.drop 12).take 4
  else []

/-- Go `net.ubtoa`: the decimal digits of a byte, without leading zeros. -/
def ubtoa (v : byte) : List Char :=
  if v.val < 10 then [Char.ofNat (v.val + 48)]
  else if v.val < 100 then [Char.ofNat (v.val / 10 + 48), Char.ofNat (v.val % 10 + 48)]
  else [Char.ofNat (v.val / 100 + 48), Char.ofNat (v.val / 10 % 10 + 48), Char.ofNat (v.val % 10 + 48)]

/-- Go `net.hexString`: two hexadecimal digits per byte. -/
def hexString (b : List byte) : List Char :=
  b.flatMap (fun tn => [hexDigit (tn.val >>> 4), hexDigit (tn.val &&& 0xf)])

/-- Go `net.appendHex`: append `i` in hexadecimal, leading zeros not printed. -/
def appendHex (dst : List Char) (i : Nat) : List Char :=
  if i = 0 then dst ++ ['0']
  else [7, 6, 5, 4, 3, 2, 1, 0].foldl
    (fun dst j => if i >>> (j * 4) > 0 then dst ++ [hexDigit ((i >>> (j * 4)) &&& 0xf)] else dst) dst

/-- The inner loop of `IP.String`,
`for j < IPv6len && p[j] == 0 && p[j+1] == 0 { j += 2 }`; the first argument bounds
the number of iterations, which is at most 8 as `j` grows by 2 below 16. -/
def zeroRunEnd (p : IP) : Nat → Nat → Nat
  | 0, j => j
  | n + 1, j => if j < IPv6len ∧ byteAt p j = 0 ∧ byteAt p (j + 1) = 0 then zeroRunEnd p n (j + 2) else j

/-- The loop of `IP.String` that finds the longest run `[e0, e1)` of zero groups,
started at `i` with the run found so far; the first argument bounds the number of
iterations, which is at most 8 as `i` grows by at least 2 below 16. -/
def longestZeroRun (p : IP) : Nat → Nat → Int × Int → Int × Int
  | 0, _, e => e
  | n + 1, i, e =>
    if i < IPv6len then
      let j := zeroRunEnd p 8 i
      if j > i ∧ (j : Int) - (i : Int) > e.2 - e.1 then longestZeroRun p n (j + 2) ((i : Int), (j : Int))
      else longestZeroRun p n (i + 2) e
    else e

/-- The printing loop of `IP.String` for a 16-byte address, started at `i` with the
buffer `b`; the first argument bounds the number of iterations (at most 8). -/
def printGroups (p : IP) (e0 e1 : Int) : Nat → Nat → List Char → List Char
  | 0, _, b => b
  | n + 1, i, b =>
    if i < IPv6len then
      if (i : Int) = e0 then
        if e1.toNat ≥ IPv6len then b ++ [':', ':']
        else printGroups p e0 e1 n (e1.toNat + 2)
          (appendHex (b ++ [':', ':']) (byteAt p e1.toNat * 256 + byteAt p (e1.toNat + 1)))
      else if i > 0 then printGroups p e0 e1 n (i + 2) (appendHex (b ++ [':']) (byteAt p i * 256 + byteAt p (i + 1)))
      else printGroups p e0 e1 n (i + 2) (appendHex b (byteAt p i * 256 + byteAt p (i + 1)))
    else b

/-- The dotted-decimal text of the 4-byte address `p4`. -/
def dotted (p4 : IP) : List Char :=
  ubtoa (p4.getD 0 0) ++ '.' :: (ubtoa (p4.getD 1 0) ++ '.' :: (ubtoa (p4.getD 2 0) ++ '.' :: ubtoa (p4.getD 3 0)))

/-- The colon-hexadecimal text of the 16-byte address `p`, with the longest run of two
or more zero groups written `::`. -/
def colonHex (p : IP) : List Char :=
  let e := longestZeroRun p 8 0 (-1, -1)
  let e := if e.2 - e.1 ≤ 2 then ((-1 : Int), (-1 : Int)) else e
  printGroups p e.1 e.2 8 0 []

/-- Go `net.IP.String`: `<nil>` for the empty slice, dotted decimal for an IPv4 address
(4 bytes, or 16 bytes IPv4-mapped), `?` and the bytes in hexadecimal for any other
length but 16, colon-hexadecimal for the rest. -/
def IP.String (ip : IP) : String :=
  if ip.length = 0 then "<nil>"
  else if ip.To4.length = IPv4len then String.mk (dotted ip.To4)
  else if ip.length ≠ IPv6len then String.mk ('?' :: hexString ip)
  else String.mk (colonHex ip)

/-! ## The builders of `inmesh.go` -/

section Builders

variable {MeshService Configurator Message : Type}

/-- The function `getInboundInMeshFilterChain` (lines 29-76): serialize the downstream TLS
context, then the inbound connection manager, returning the first error met; otherwise
assemble the chain. -/
def getInboundInMeshFilterChain (x : Externals MeshService Configurator Message)
    (proxyServiceName : MeshService) (cfg : Configurator) : Option FilterChain × Option Error :=
  match x.MarshalAny (x.GetDownstreamTLSContext proxyServiceName true) with
  | (_, some err) => (none, some err)
  | (marshalledDownstreamTLSContext, none) =>
    let inboundConnManager := x.getHTTPConnectionManager x.InboundRouteConfigName cfg
    match x.MarshalAny inboundConnManager with
    | (_, some err) => (none, some err)
    | (marshalledInboundConnManager, none) =>
      (some {
        Name := inboundMeshFilterChainName
        Filters := [{ Name := x.HTTPConnectionManager, TypedConfig := marshalledInboundConnManager }]
        FilterChainMatch := some {
          ServerNames := [x.ServerName proxyServiceName]
          TransportProtocol := x.TransportProtocolTLS
          ApplicationProtocols := x.ALPNInMesh }
        TransportSocket := some {
          Name := x.TransportSocketTls
          TypedConfig := marshalledDownstreamTLSContext } }, none)

/-- The method `listenerBuilder.getOutboundHTTPFilter` (lines 79-94). -/
def getOutboundHTTPFilter (x : Externals MeshService Configurator Message)
    (lb : listenerBuilder MeshService Configurator) : Option Filter × Option Error :=
  match x.MarshalAny (x.getHTTPConnectionManager x.OutboundRouteConfigName lb.cfg) with
  | (_, some err) => (none, some err)
  | (marshalledFilter, none) =>
    (some { Name := x.HTTPConnectionManager, TypedConfig := marshalledFilter }, none)

/-- The `for _, endp := range endpoints` loop of
`getOutboundHTTPFilterChainMatchForService`: one `append` to `PrefixRanges` per
endpoint, in order. -/
def appendPrefixRanges (filterMatch : FilterChainMatch) : List Endpoint → FilterChainMatch
  | [] => filterMatch
  | endp :: rest =>
    appendPrefixRanges
      { filterMatch with
        PrefixRanges := filterMatch.PrefixRanges ++
          [{ AddressPrefix := endp.IP.String, PrefixLen := some { Value := singleIpv4Mask } }] }
      rest

/-- The method `listenerBuilder.getOutboundHTTPFilterChainMatchForService`
(lines 100-128). -/
def getOutboundHTTPFilterChainMatchForService (lb : listenerBuilder MeshService Configurator)
    (dstSvc : MeshService) : Option FilterChainMatch × Option Error :=
  let filterMatch : FilterChainMatch := { ApplicationProtocols := supportedDownstreamHTTPProtocols }
  match lb.meshCatalog.GetResolvableServiceEndpoints dstSvc with
  | (_, some err) => (none, some err)
  | (endpoints, none) =>
    if endpoints.length = 0 then (none, none)
    else (some (appendPrefixRanges filterMatch endpoints), none)

end Builders

/-- The range the loop body builds for one endpoint. -/
def rangeOf (endp : Endpoint) : CidrRange :=
  { AddressPrefix := endp.IP.String, PrefixLen := some { Value := singleIpv4Mask } }

/-! ## What an address prefix range covers

The proxy reads a `CidrRange` as a CIDR block (RFC 4632): the text of `AddressPrefix`
names an address, IPv4 when written in dotted decimal and IPv6 when written in
colon-hexadecimal, and the block holds the addresses of that same family whose
leading `PrefixLen` bits are those of the named address. -/

/-- The number the bytes of an address spell, most significant byte first. -/
def addressValue (a : IP) : Nat := a.foldl (fun acc b => acc * 256 + b.val) 0

/-- The text of a network address: dotted decimal for the 4 bytes of an IPv4 address,
colon-hexadecimal for the 16 bytes of an IPv6 address. -/
def addressText (a : IP) : String :=
  if a.length = IPv4len then String.mk (dotted a) else String.mk (colonHex a)

/-- The prefix length of a range; an absent wrapper is the protobuf default, zero. -/
def CidrRange.prefixLength (r : CidrRange) : Nat :=
  match r.PrefixLen with
  | some v => v.Value
  | none => 0

/-- The destination address `d` (4 or 16 bytes) lies in the block of the range `r`:
`r.AddressPrefix` is the text of an address `a` of the family of `d`, and `d` and `a`
agree once the bits after the first `r.prefixLength` are dropped. -/
def CidrRange.covers (r : CidrRange) (d : IP) : Prop :=
  ∃ a : IP, (a.length = IPv4len ∨ a.length = IPv6len) ∧ addressText a = r.AddressPrefix ∧
    d.length = a.length ∧
    addressValue d / 2 ^ (8 * a.length - r.prefixLength) =
      addressValue a / 2 ^ (8 * a.length - r.prefixLength)

/-- The network address of an endpoint: the 4 bytes of `To4` when its IP is an IPv4
address (in 4-byte or in 16-byte IPv4-mapped form), its 16 bytes otherwise. -/
def Endpoint.address (e : Endpoint) : List byte :=
  if e.IP.To4.length = IPv4len then e.IP.To4 else e.IP

/-- The value of a string of decimal digits. -/
def digitsValue (l : List Char) : Nat := l.foldl (fun acc c => acc * 10 + (c.toNat - 48)) 0

/-! ## The scenarios of the specification, as concrete inputs -/

/-- The resolver of the spec's scenarios: `bookstore` resolves to 10.0.0.5 and 10.0.0.6
(in that order), `catalog` resolves to no endpoint, `reviews` resolves to 10.0.0.8,
10.0.0.7 and 10.0.0.8 again, and the lookup of any other service fails, handing back a
stale endpoint with the error. -/
def scenarioCatalog : MeshCataloger String where
  GetResolvableServiceEndpoints := fun svc =>
    if svc = "bookstore" then ([⟨[10, 0, 0, 5]⟩, ⟨[10, 0, 0, 6]⟩], none)
    else if svc = "catalog" then ([], none)
    else if svc = "reviews" then ([⟨[10, 0, 0, 8]⟩, ⟨[10, 0, 0, 7]⟩, ⟨[10, 0, 0, 8]⟩], none)
    else ([⟨[10, 0, 0, 9]⟩], some ⟨"service not found"⟩)

/-- A listener builder over `scenarioCatalog`. -/
def scenarioBuilder : listenerBuilder String Unit := ⟨scenarioCatalog, ()⟩

/-- Collaborators for the scenarios: a message is the text describing it, and
`MarshalAny` wraps that text's type name; the message of the proxy `broken` and the
connection manager of the route table `broken` do not serialize. -/
def scenarioExternals (inbound outbound : String) : Externals String Unit (String × String) where
  InboundRouteConfigName := inbound
  OutboundRouteConfigName := outbound
  HTTPConnectionManager := "envoy.filters.network.http_connection_manager"
  TransportSocketTls := "envoy.transport_sockets.tls"
  TransportProtocolTLS := "tls"
  ALPNInMesh := ["osm"]
  ServerName := fun svc => svc ++ ".default.svc.cluster.local"
  GetDownstreamTLSContext := fun svc mTLS => (if mTLS then "DownstreamTlsContext/mTLS" else "DownstreamTlsContext", svc)
  getHTTPConnectionManager := fun name _ => ("HttpConnectionManager", name)
  MarshalAny := fun m =>
    if m.2 = "broken" then (none, some ⟨"proto: cannot marshal " ++ m.1⟩)
    else (some ⟨m.1 ++ ":" ++ m.2, []⟩, none)

/-- A second resolver, which agrees with `scenarioCatalog` on `bookstore` and on no
other service. -/
def otherCatalog : MeshCataloger String where
  GetResolvableServiceEndpoints := fun svc =>
    if svc = "bookstore" then ([⟨[10, 0, 0, 5]⟩, ⟨[10, 0, 0, 6]⟩], none)
    else ([⟨[192, 168, 0, 1]⟩], none)

/-- A resolver on an IPv6 cluster: every service resolves to the one endpoint
`2001:db8::1`. -/
def ipv6Catalog : MeshCataloger String where
  GetResolvableServiceEndpoints := fun _ =>
    ([⟨[0x20, 0x01, 0x0d, 0xb8, 0, 0, 0, 0, 0, 0, 0, 0, 0, 0, 0, 1]⟩], none)

/-! ## Lemmas on the outbound match -/

section Lemmas

variable {MeshService Configurator Message : Type}

theorem appendPrefixRanges_eq (fm : FilterChainMatch) (endpoints : List Endpoint) :
    appendPrefixRanges fm endpoints =
      { fm with PrefixRanges := fm.PrefixRanges ++ endpoints.map rangeOf } := by
  induction endpoints generalizing fm with
  | nil => simp [appendPrefixRanges]
  | cons endp rest ih => simp [appendPrefixRanges, ih, rangeOf]

theorem outbound_of_error (lb : listenerBuilder MeshService Configurator) (dstSvc : MeshService)
    (endpoints : List Endpoint) (err : Error)
    (h : lb.meshCatalog.GetResolvableServiceEndpoints dstSvc = (endpoints, some err)) :
    getOutboundHTTPFilterChainMatchForService lb dstSvc = (none, some err) := by
  simp [getOutboundHTTPFilterChainMatchForService, h]

theorem outbound_of_empty (lb : listenerBuilder MeshService Configurator) (dstSvc : MeshService)
    (h : lb.meshCatalog.GetResolvableServiceEndpoints dstSvc = ([], none)) :
    getOutboundHTTPFilterChainMatchForService lb dstSvc = (none, none) := by
  simp [getOutboundHTTPFilterChainMatchForService, h]

theorem outbound_of_endpoints (lb : listenerBuilder MeshService Configurator) (dstSvc : MeshService)
    (endpoints : List Endpoint)
    (h : lb.meshCatalog.GetResolvableServiceEndpoints dstSvc = (endpoints, none))
    (hne : endpoints ≠ []) :
    getOutboundHTTPFilterChainMatchForService lb dstSvc =
      (some { PrefixRanges := endpoints.map rangeOf
              ApplicationProtocols := supportedDownstreamHTTPProtocols }, none) := by
  have hlen : endpoints.length ≠ 0 := by
    intro h0; exact hne (List.length_eq_zero.mp h0)
  simp [getOutboundHTTPFilterChainMatchForService, h, hlen, appendPrefixRanges_eq]

/-- Every outcome of `getOutboundHTTPFilterChainMatchForService` is one of three:
the resolver's error, "no match", or the match over a non-empty endpoint list. -/
theorem outbound_cases (lb : listenerBuilder MeshService Configurator) (dstSvc : MeshService) :
    (∃ endpoints err, lb.meshCatalog.GetResolvableServiceEndpoints dstSvc = (endpoints, some err) ∧
        getOutboundHTTPFilterChainMatchForService lb dstSvc = (none, some err)) ∨
    (lb.meshCatalog.GetResolvableServiceEndpoints dstSvc = ([], none) ∧
        getOutboundHTTPFilterChainMatchForService lb dstSvc = (none, none)) ∨
    (∃ endpoints, endpoints ≠ [] ∧
        lb.meshCatalog.GetResolvableServiceEndpoints dstSvc = (endpoints, none) ∧
        getOutboundHTTPFilterChainMatchForService lb dstSvc =
          (some { PrefixRanges := endpoints.map rangeOf
                  ApplicationProtocols := supportedDownstreamHTTPProtocols }, none)) := by
  rcases hres : lb.meshCatalog.GetResolvableServiceEndpoints dstSvc with ⟨endpoints, e⟩
  cases e with
  | some err => exact Or.inl ⟨endpoints, err, rfl, outbound_of_error lb dstSvc endpoints err hres⟩
  | none =>
    cases endpoints with
    | nil => exact Or.inr (Or.inl ⟨rfl, outbound_of_empty lb dstSvc hres⟩)
    | cons endp rest =>
      exact Or.inr (Or.inr ⟨endp :: rest, by simp, rfl,
        outbound_of_endpoints lb dstSvc (endp :: rest) hres (by simp)⟩)

/-- The result of `getInboundInMeshFilterChain` when serializing the TLS context fails. -/
theorem inbound_of_tls_error (x : Externals MeshService Configurator Message)
    (proxyServiceName : MeshService) (cfg : Configurator) (err : Error)
    (h : (x.MarshalAny (x.GetDownstreamTLSContext proxyServiceName true)).2 = some err) :
    getInboundInMeshFilterChain x proxyServiceName cfg = (none, some err) := by
  rcases hres : x.MarshalAny (x.GetDownstreamTLSContext proxyServiceName true) with ⟨a, e⟩
  rw [hres] at h
  simp only at h
  subst h
  simp [getInboundInMeshFilterChain, hres]

/-- The result of `getInboundInMeshFilterChain` when the TLS context serializes and the connection
manager does not. -/
theorem inbound_of_hcm_error (x : Externals MeshService Configurator Message)
    (proxyServiceName : MeshService) (cfg : Configurator) (err : Error)
    (htls : (x.MarshalAny (x.GetDownstreamTLSContext proxyServiceName true)).2 = none)
    (h : (x.MarshalAny (x.getHTTPConnectionManager x.InboundRouteConfigName cfg)).2 = some err) :
    getInboundInMeshFilterChain x proxyServiceName cfg = (none, some err) := by
  rcases hres : x.MarshalAny (x.GetDownstreamTLSContext proxyServiceName true) with ⟨a, e⟩
  rcases hres2 : x.MarshalAny (x.getHTTPConnectionManager x.InboundRouteConfigName cfg) with ⟨a2, e2⟩
  rw [hres] at htls
  rw [hres2] at h
  simp only at htls h
  subst htls h
  simp [getInboundInMeshFilterChain, hres, hres2]

/-- The result of `getInboundInMeshFilterChain` when both serializations succeed. -/
theorem inbound_of_success (x : Externals MeshService Configurator Message)
    (proxyServiceName : MeshService) (cfg : Configurator)
    (htls : (x.MarshalAny (x.GetDownstreamTLSContext proxyServiceName true)).2 = none)
    (hhcm : (x.MarshalAny (x.getHTTPConnectionManager x.InboundRouteConfigName cfg)).2 = none) :
    getInboundInMeshFilterChain x proxyServiceName cfg =
      (some {
        Name := inboundMeshFilterChainName
        Filters := [{ Name := x.HTTPConnectionManager
                      TypedConfig := (x.MarshalAny (x.getHTTPConnectionManager x.InboundRouteConfigName cfg)).1 }]
        FilterChainMatch := some {
          ServerNames := [x.ServerName proxyServiceName]
          TransportProtocol := x.TransportProtocolTLS
          ApplicationProtocols := x.ALPNInMesh }
        TransportSocket := some {
          Name := x.TransportSocketTls
          TypedConfig := (x.MarshalAny (x.GetDownstreamTLSContext proxyServiceName true)).1 } }, none) := by
  rcases hres : x.MarshalAny (x.GetDownstreamTLSContext proxyServiceName true) with ⟨a, e⟩
  rcases hres2 : x.MarshalAny (x.getHTTPConnectionManager x.InboundRouteConfigName cfg) with ⟨a2, e2⟩
  rw [hres] at htls
  rw [hres2] at hhcm
  simp only at htls hhcm
  subst htls hhcm
  simp [getInboundInMeshFilterChain, hres, hres2]

/-- The result of `getOutboundHTTPFilter` when serialization fails. -/
theorem outboundFilter_of_error (x : Externals MeshService Configurator Message)
    (lb : listenerBuilder MeshService Configurator) (err : Error)
    (h : (x.MarshalAny (x.getHTTPConnectionManager x.OutboundRouteConfigName lb.cfg)).2 = some err) :
    getOutboundHTTPFilter x lb = (none, some err) := by
  rcases hres : x.MarshalAny (x.getHTTPConnectionManager x.OutboundRouteConfigName lb.cfg) with ⟨a, e⟩
  rw [hres] at h
  simp only at h
  subst h
  simp [getOutboundHTTPFilter, hres]

/-- The result of `getOutboundHTTPFilter` when serialization succeeds. -/
theorem outboundFilter_of_success (x : Externals MeshService Configurator Message)
    (lb : listenerBuilder MeshService Configurator)
    (h : (x.MarshalAny (x.getHTTPConnectionManager x.OutboundRouteConfigName lb.cfg)).2 = none) :
    getOutboundHTTPFilter x lb =
      (some { Name := x.HTTPConnectionManager
              TypedConfig := (x.MarshalAny (x.getHTTPConnectionManager x.OutboundRouteConfigName lb.cfg)).1 },
        none) := by
  rcases hres : x.MarshalAny (x.getHTTPConnectionManager x.OutboundRouteConfigName lb.cfg) with ⟨a, e⟩
  rw [hres] at h
  simp only at h
  subst h
  simp [getOutboundHTTPFilter, hres]

end Lemmas

/-! ## The outbound match: prefix ranges, "no match", errors, application protocols -/

section Outbound

variable {MeshService Configurator Message : Type}

/-- C1. When the resolver returns the non-empty endpoint list `e_1..e_k` and no error,
`getOutboundHTTPFilterChainMatchForService` returns a match and no error; the match
has exactly `k` prefix ranges, the `i`-th being the string form of the IP of `e_i`
with prefix length 32 (`singleIpv4Mask`): the ranges are the resolver's list mapped
entry by entry, in order, nothing sorted, merged or dropped. -/
theorem outbound_prefix_ranges_mirror_resolver
    (lb : listenerBuilder MeshService Configurator) (dstSvc : MeshService)
    (endpoints : List Endpoint)
    (hres : lb.meshCatalog.GetResolvableServiceEndpoints dstSvc = (endpoints, none))
    (hne : endpoints ≠ []) :
    ∃ m, getOutboundHTTPFilterChainMatchForService lb dstSvc = (some m, none) ∧
      m.PrefixRanges.length = endpoints.length ∧
      (∀ i (hi : i < endpoints.length), m.PrefixRanges[i]? =
        some { AddressPrefix := (endpoints[i]).IP.String, PrefixLen := some { Value := 32 } }) ∧
      m.PrefixRanges = endpoints.map
        (fun e => { AddressPrefix := e.IP.String, PrefixLen := some { Value := singleIpv4Mask } }) := by
  refine ⟨_, outbound_of_endpoints lb dstSvc endpoints hres hne, by simp, ?_, rfl⟩
  intro i hi
  simp [rangeOf, singleIpv4Mask, hi]

/-- Witness of C1: the spec's scenario, `bookstore` resolving to 10.0.0.5 and 10.0.0.6;
and `reviews`, whose endpoints come unsorted and with a repeat, and leave as they came. -/
theorem outbound_prefix_ranges_mirror_resolver_witness :
    (∃ m, getOutboundHTTPFilterChainMatchForService scenarioBuilder "bookstore" = (some m, none) ∧
      m.PrefixRanges.length = 2 ∧
      m.PrefixRanges = [⟨"10.0.0.5", some ⟨32⟩⟩, ⟨"10.0.0.6", some ⟨32⟩⟩]) ∧
    (∃ m, getOutboundHTTPFilterChainMatchForService scenarioBuilder "reviews" = (some m, none) ∧
      m.PrefixRanges.length = 3 ∧
      m.PrefixRanges = [⟨"10.0.0.8", some ⟨32⟩⟩, ⟨"10.0.0.7", some ⟨32⟩⟩, ⟨"10.0.0.8", some ⟨32⟩⟩]) := by
  constructor
  · obtain ⟨m, hm, hlen, _, hmap⟩ := outbound_prefix_ranges_mirror_resolver scenarioBuilder "bookstore"
      [⟨[10, 0, 0, 5]⟩, ⟨[10, 0, 0, 6]⟩] (by decide) (by decide)
    refine ⟨m, hm, hlen, ?_⟩
    rw [hmap]
    decide
  · obtain ⟨m, hm, hlen, _, hmap⟩ := outbound_prefix_ranges_mirror_resolver scenarioBuilder "reviews"
      [⟨[10, 0, 0, 8]⟩, ⟨[10, 0, 0, 7]⟩, ⟨[10, 0, 0, 8]⟩] (by decide) (by decide)
    refine ⟨m, hm, hlen, ?_⟩
    rw [hmap]
    decide

/-- C2. When the resolver succeeds with zero endpoints,
`getOutboundHTTPFilterChainMatchForService` returns the nil match with a nil error;
and on every input, a match it returns has at least one prefix range. -/
theorem outbound_zero_endpoints_no_match
    (lb : listenerBuilder MeshService Configurator) (dstSvc : MeshService) :
    (lb.meshCatalog.GetResolvableServiceEndpoints dstSvc = ([], none) →
      getOutboundHTTPFilterChainMatchForService lb dstSvc = (none, none)) ∧
    (∀ m, (getOutboundHTTPFilterChainMatchForService lb dstSvc).1 = some m →
      1 ≤ m.PrefixRanges.length) := by
  refine ⟨outbound_of_empty lb dstSvc, ?_⟩
  intro m hm
  rcases outbound_cases lb dstSvc with ⟨_, _, _, h⟩ | ⟨_, h⟩ | ⟨endpoints, hne, _, h⟩
  · rw [h] at hm; simp at hm
  · rw [h] at hm; simp at hm
  · rw [h] at hm
    simp only [Option.some.injEq] at hm
    subst hm
    simpa using List.length_pos.mpr hne

/-- Witness of C2: the spec's scenario, `catalog` resolving to no endpoint. -/
theorem outbound_zero_endpoints_no_match_witness :
    scenarioBuilder.meshCatalog.GetResolvableServiceEndpoints "catalog" = ([], none) ∧
    getOutboundHTTPFilterChainMatchForService scenarioBuilder "catalog" = (none, none) :=
  ⟨by decide, (outbound_zero_endpoints_no_match scenarioBuilder "catalog").1 (by decide)⟩

/-- C3. When the resolver returns an error, `getOutboundHTTPFilterChainMatchForService`
returns the nil match and that same error, whatever endpoint list came with it; and
it returns an error only when the resolver returned that error. -/
theorem outbound_resolver_error_propagates
    (lb : listenerBuilder MeshService Configurator) (dstSvc : MeshService) :
    (∀ endpoints err,
      lb.meshCatalog.GetResolvableServiceEndpoints dstSvc = (endpoints, some err) →
      getOutboundHTTPFilterChainMatchForService lb dstSvc = (none, some err)) ∧
    (∀ err, (getOutboundHTTPFilterChainMatchForService lb dstSvc).2 = some err →
      (lb.meshCatalog.GetResolvableServiceEndpoints dstSvc).2 = some err) := by
  refine ⟨outbound_of_error lb dstSvc, ?_⟩
  intro err herr
  rcases outbound_cases lb dstSvc with ⟨_, err2, hres, h⟩ | ⟨_, h⟩ | ⟨_, _, _, h⟩
  · rw [h] at herr
    rw [hres]
    simpa using herr
  · rw [h] at herr; simp at herr
  · rw [h] at herr; simp at herr

/-- Witness of C3: a failing lookup that hands back an endpoint with its error. -/
theorem outbound_resolver_error_propagates_witness :
    scenarioBuilder.meshCatalog.GetResolvableServiceEndpoints "unknown" =
      ([⟨[10, 0, 0, 9]⟩], some ⟨"service not found"⟩) ∧
    getOutboundHTTPFilterChainMatchForService scenarioBuilder "unknown" =
      (none, some ⟨"service not found"⟩) :=
  ⟨by decide, (outbound_resolver_error_propagates scenarioBuilder "unknown").1
    [⟨[10, 0, 0, 9]⟩] ⟨"service not found"⟩ (by decide)⟩

/-- C7. Whenever `getOutboundHTTPFilterChainMatchForService` returns a match, its
application protocols are the ordered list `http/1.0`, `http/1.1`, `h2c`, whatever the
destination and the endpoints; the list has three entries and `h2` is not among them. -/
theorem outbound_application_protocols
    (lb : listenerBuilder MeshService Configurator) (dstSvc : MeshService)
    (m : FilterChainMatch)
    (hm : (getOutboundHTTPFilterChainMatchForService lb dstSvc).1 = some m) :
    m.ApplicationProtocols = ["http/1.0", "http/1.1", "h2c"] ∧
    m.ApplicationProtocols.length = 3 ∧
    "h2" ∉ m.ApplicationProtocols := by
  have happ : m.ApplicationProtocols = ["http/1.0", "http/1.1", "h2c"] := by
    rcases outbound_cases lb dstSvc with ⟨_, _, _, h⟩ | ⟨_, h⟩ | ⟨_, _, _, h⟩
    · rw [h] at hm; simp at hm
    · rw [h] at hm; simp at hm
    · rw [h] at hm
      simp only [Option.some.injEq] at hm
      subst hm
      rfl
  rw [happ]
  exact ⟨rfl, rfl, by decide⟩

/-- Witness of C7: the match built for `bookstore`. -/
theorem outbound_application_protocols_witness :
    ∃ m, (getOutboundHTTPFilterChainMatchForService scenarioBuilder "bookstore").1 = some m ∧
      m.ApplicationProtocols = ["http/1.0", "http/1.1", "h2c"] ∧
      m.ApplicationProtocols.length = 3 ∧ "h2" ∉ m.ApplicationProtocols :=
  ⟨⟨[⟨"10.0.0.5", some ⟨32⟩⟩, ⟨"10.0.0.6", some ⟨32⟩⟩], [], "", ["http/1.0", "http/1.1", "h2c"]⟩,
    by decide, outbound_application_protocols scenarioBuilder "bookstore" _ (by decide)⟩

end Outbound

/-! ## The inbound chain and the outbound HTTP filter -/

section Inbound

variable {MeshService Configurator Message : Type}

/-- C4. When both serializations succeed, `getInboundInMeshFilterChain` returns a chain
and no error, and the chain's match has the server names `[P.ServerName()]`, the
transport protocol `envoy.TransportProtocolTLS`, the application protocols
`envoy.ALPNInMesh` (non-empty, as that list is) and no prefix ranges. -/
theorem inbound_chain_match (x : Externals MeshService Configurator Message)
    (proxyServiceName : MeshService) (cfg : Configurator)
    (htls : (x.MarshalAny (x.GetDownstreamTLSContext proxyServiceName true)).2 = none)
    (hhcm : (x.MarshalAny (x.getHTTPConnectionManager x.InboundRouteConfigName cfg)).2 = none)
    (halpn : x.ALPNInMesh ≠ []) :
    ∃ chain m, getInboundInMeshFilterChain x proxyServiceName cfg = (some chain, none) ∧
      chain.FilterChainMatch = some m ∧
      m.ServerNames = [x.ServerName proxyServiceName] ∧
      m.TransportProtocol = x.TransportProtocolTLS ∧
      m.ApplicationProtocols = x.ALPNInMesh ∧
      m.ApplicationProtocols ≠ [] ∧
      m.PrefixRanges = [] :=
  ⟨_, _, inbound_of_success x proxyServiceName cfg htls hhcm, rfl, rfl, rfl, rfl, halpn, rfl⟩

/-- Witness of C4: the spec's scenario, the proxy `bookstore`. -/
theorem inbound_chain_match_witness :
    ∃ chain m,
      getInboundInMeshFilterChain (scenarioExternals "RDS_Inbound" "RDS_Outbound") "bookstore" () =
        (some chain, none) ∧
      chain.FilterChainMatch = some m ∧
      m.ServerNames = ["bookstore.default.svc.cluster.local"] ∧
      m.TransportProtocol = "tls" ∧
      m.ApplicationProtocols = ["osm"] ∧
      m.ApplicationProtocols ≠ [] ∧
      m.PrefixRanges = [] :=
  inbound_chain_match (scenarioExternals "RDS_Inbound" "RDS_Outbound") "bookstore" ()
    (by decide) (by decide) (by decide)

/-- C5. When both serializations succeed, the chain `getInboundInMeshFilterChain`
returns is named `inbound-mesh-filter-chain`; it has exactly one filter, named
`wellknown.HTTPConnectionManager` and carrying the serialized connection manager built
for `route.InboundRouteConfigName`; and its transport socket is present, named
`wellknown.TransportSocketTls` and carrying the serialized downstream TLS context built
for the same identity with the mTLS flag `true`. -/
theorem inbound_chain_envelope (x : Externals MeshService Configurator Message)
    (proxyServiceName : MeshService) (cfg : Configurator)
    (htls : (x.MarshalAny (x.GetDownstreamTLSContext proxyServiceName true)).2 = none)
    (hhcm : (x.MarshalAny (x.getHTTPConnectionManager x.InboundRouteConfigName cfg)).2 = none) :
    ∃ chain, getInboundInMeshFilterChain x proxyServiceName cfg = (some chain, none) ∧
      chain.Name = "inbound-mesh-filter-chain" ∧
      chain.Filters.length = 1 ∧
      chain.Filters =
        [{ Name := x.HTTPConnectionManager
           TypedConfig := (x.MarshalAny (x.getHTTPConnectionManager x.InboundRouteConfigName cfg)).1 }] ∧
      chain.TransportSocket =
        some { Name := x.TransportSocketTls
               TypedConfig := (x.MarshalAny (x.GetDownstreamTLSContext proxyServiceName true)).1 } :=
  ⟨_, inbound_of_success x proxyServiceName cfg htls hhcm, rfl, rfl, rfl, rfl⟩

/-- Witness of C5: the spec's scenario, the proxy `bookstore`. -/
theorem inbound_chain_envelope_witness :
    ∃ chain,
      getInboundInMeshFilterChain (scenarioExternals "RDS_Inbound" "RDS_Outbound") "bookstore" () =
        (some chain, none) ∧
      chain.Name = "inbound-mesh-filter-chain" ∧
      chain.Filters.length = 1 ∧
      chain.Filters = [⟨"envoy.filters.network.http_connection_manager",
        some ⟨"HttpConnectionManager:RDS_Inbound", []⟩⟩] ∧
      chain.TransportSocket = some ⟨"envoy.transport_sockets.tls",
        some ⟨"DownstreamTlsContext/mTLS:bookstore", []⟩⟩ :=
  inbound_chain_envelope (scenarioExternals "RDS_Inbound" "RDS_Outbound") "bookstore" ()
    (by decide) (by decide)

/-- C6. `getInboundInMeshFilterChain` returns an error exactly when serializing the
downstream TLS context or the inbound connection manager fails; with an error the
chain is nil; the error is the serializer's own, and a failure of the TLS context is
the one reported whatever the connection manager would have done. -/
theorem inbound_error_iff_serialization_fails (x : Externals MeshService Configurator Message)
    (proxyServiceName : MeshService) (cfg : Configurator) :
    ((getInboundInMeshFilterChain x proxyServiceName cfg).2 ≠ none ↔
      ((x.MarshalAny (x.GetDownstreamTLSContext proxyServiceName true)).2 ≠ none ∨
       (x.MarshalAny (x.getHTTPConnectionManager x.InboundRouteConfigName cfg)).2 ≠ none)) ∧
    ((getInboundInMeshFilterChain x proxyServiceName cfg).2 ≠ none →
      (getInboundInMeshFilterChain x proxyServiceName cfg).1 = none) ∧
    (∀ err, (x.MarshalAny (x.GetDownstreamTLSContext proxyServiceName true)).2 = some err →
      getInboundInMeshFilterChain x proxyServiceName cfg = (none, some err)) ∧
    ((x.MarshalAny (x.GetDownstreamTLSContext proxyServiceName true)).2 = none →
      ∀ err, (x.MarshalAny (x.getHTTPConnectionManager x.InboundRouteConfigName cfg)).2 = some err →
        getInboundInMeshFilterChain x proxyServiceName cfg = (none, some err)) := by
  have h3 := inbound_of_tls_error x proxyServiceName cfg
  have h4 := inbound_of_hcm_error x proxyServiceName cfg
  have h5 := inbound_of_success x proxyServiceName cfg
  refine ⟨?_, ?_, h3, fun htls err => h4 err htls⟩
  · cases htls : (x.MarshalAny (x.GetDownstreamTLSContext proxyServiceName true)).2 with
    | some err => simp [h3 err htls]
    | none =>
      cases hhcm : (x.MarshalAny (x.getHTTPConnectionManager x.InboundRouteConfigName cfg)).2 with
      | some err => simp [h4 err htls hhcm]
      | none => simp [h5 htls hhcm]
  · cases htls : (x.MarshalAny (x.GetDownstreamTLSContext proxyServiceName true)).2 with
    | some err => simp [h3 err htls]
    | none =>
      cases hhcm : (x.MarshalAny (x.getHTTPConnectionManager x.InboundRouteConfigName cfg)).2 with
      | some err => simp [h4 err htls hhcm]
      | none => simp [h5 htls hhcm]

/-- Witness of C6: for the proxy `broken` and the route table `broken` both
serializations fail, and the error returned is the TLS context's. -/
theorem inbound_error_iff_serialization_fails_witness :
    (scenarioExternals "broken" "RDS_Outbound").MarshalAny
      ((scenarioExternals "broken" "RDS_Outbound").getHTTPConnectionManager "broken" ()) =
        (none, some ⟨"proto: cannot marshal HttpConnectionManager"⟩) ∧
    getInboundInMeshFilterChain (scenarioExternals "broken" "RDS_Outbound") "broken" () =
      (none, some ⟨"proto: cannot marshal DownstreamTlsContext/mTLS"⟩) :=
  ⟨by decide, (inbound_error_iff_serialization_fails (scenarioExternals "broken" "RDS_Outbound")
    "broken" ()).2.2.1 _ (by decide)⟩

/-- C9. `getOutboundHTTPFilter` serializes the connection manager built for
`route.OutboundRouteConfigName` (a name other than the inbound chain's, and the value
of the inbound name has no bearing on the result) and the builder's configuration.
When that succeeds it returns no error and the filter named
`wellknown.HTTPConnectionManager` carrying the serialized message; when it fails it
returns the nil filter and the serializer's error; it never returns both a filter and
an error. -/
theorem outbound_http_filter (x : Externals MeshService Configurator Message)
    (lb : listenerBuilder MeshService Configurator)
    (hdist : x.OutboundRouteConfigName ≠ x.InboundRouteConfigName) :
    ∃ route, route = x.OutboundRouteConfigName ∧ route ≠ x.InboundRouteConfigName ∧
      ((x.MarshalAny (x.getHTTPConnectionManager route lb.cfg)).2 = none →
        getOutboundHTTPFilter x lb =
          (some { Name := x.HTTPConnectionManager
                  TypedConfig := (x.MarshalAny (x.getHTTPConnectionManager route lb.cfg)).1 }, none)) ∧
      (∀ err, (x.MarshalAny (x.getHTTPConnectionManager route lb.cfg)).2 = some err →
        getOutboundHTTPFilter x lb = (none, some err)) ∧
      ¬ ((getOutboundHTTPFilter x lb).1 ≠ none ∧ (getOutboundHTTPFilter x lb).2 ≠ none) ∧
      (∀ inbound, getOutboundHTTPFilter { x with InboundRouteConfigName := inbound } lb =
        getOutboundHTTPFilter x lb) := by
  refine ⟨_, rfl, hdist, outboundFilter_of_success x lb, outboundFilter_of_error x lb, ?_, ?_⟩
  · cases h : (x.MarshalAny (x.getHTTPConnectionManager x.OutboundRouteConfigName lb.cfg)).2 with
    | some err => simp [outboundFilter_of_error x lb err h]
    | none => simp [outboundFilter_of_success x lb h]
  · intro inbound
    rfl

/-- Witness of C9: with the route tables `RDS_Inbound` and `RDS_Outbound`, the filter
carries the connection manager of `RDS_Outbound`. -/
theorem outbound_http_filter_witness :
    "RDS_Outbound" ≠ "RDS_Inbound" ∧
    getOutboundHTTPFilter (scenarioExternals "RDS_Inbound" "RDS_Outbound") scenarioBuilder =
      (some ⟨"envoy.filters.network.http_connection_manager",
        some ⟨"HttpConnectionManager:RDS_Outbound", []⟩⟩, none) := by
  obtain ⟨route, hroute, _, hok, _, _, _⟩ :=
    outbound_http_filter (scenarioExternals "RDS_Inbound" "RDS_Outbound") scenarioBuilder (by decide)
  subst hroute
  exact ⟨by decide, (hok (by decide)).trans (by decide)⟩

end Inbound

/-! ## Determinism -/

section Determinism

variable {MeshService Configurator Message : Type}

/-- C10. Both builders are functions of what they read.  Two calls of
`getInboundInMeshFilterChain` for the same identity and configuration, against
collaborators that give the same constants, the same server name and the same
serialization results for that identity and configuration, return the same result:
the same chain field by field, or the same error.  Two calls of
`getOutboundHTTPFilterChainMatchForService` for the same destination, against
resolvers that return the same output for that destination, return the same result:
the same match, the same "no match", or the same error. -/
theorem builders_deterministic :
    (∀ (x₁ x₂ : Externals MeshService Configurator Message)
        (proxyServiceName : MeshService) (cfg : Configurator),
      x₁.HTTPConnectionManager = x₂.HTTPConnectionManager →
      x₁.TransportSocketTls = x₂.TransportSocketTls →
      x₁.TransportProtocolTLS = x₂.TransportProtocolTLS →
      x₁.ALPNInMesh = x₂.ALPNInMesh →
      x₁.ServerName proxyServiceName = x₂.ServerName proxyServiceName →
      x₁.MarshalAny (x₁.GetDownstreamTLSContext proxyServiceName true) =
        x₂.MarshalAny (x₂.GetDownstreamTLSContext proxyServiceName true) →
      x₁.MarshalAny (x₁.getHTTPConnectionManager x₁.InboundRouteConfigName cfg) =
        x₂.MarshalAny (x₂.getHTTPConnectionManager x₂.InboundRouteConfigName cfg) →
      getInboundInMeshFilterChain x₁ proxyServiceName cfg =
        getInboundInMeshFilterChain x₂ proxyServiceName cfg) ∧
    (∀ (lb₁ lb₂ : listenerBuilder MeshService Configurator) (dstSvc : MeshService),
      lb₁.meshCatalog.GetResolvableServiceEndpoints dstSvc =
        lb₂.meshCatalog.GetResolvableServiceEndpoints dstSvc →
      getOutboundHTTPFilterChainMatchForService lb₁ dstSvc =
        getOutboundHTTPFilterChainMatchForService lb₂ dstSvc) := by
  constructor
  · intro x₁ x₂ proxyServiceName cfg h1 h2 h3 h4 h5 h6 h7
    simp only [getInboundInMeshFilterChain, h1, h2, h3, h4, h5, h6, h7]
  · intro lb₁ lb₂ dstSvc h
    simp only [getOutboundHTTPFilterChainMatchForService, h]

/-- Witness of C10: for `bookstore`, collaborators that differ only in the outbound
route-table name, and resolvers that differ only on other services, give the same
chain and the same match. -/
theorem builders_deterministic_witness :
    getInboundInMeshFilterChain (scenarioExternals "RDS_Inbound" "RDS_Outbound") "bookstore" () =
      getInboundInMeshFilterChain (scenarioExternals "RDS_Inbound" "elsewhere") "bookstore" () ∧
    getOutboundHTTPFilterChainMatchForService scenarioBuilder "bookstore" =
      getOutboundHTTPFilterChainMatchForService (⟨otherCatalog, ()⟩ : listenerBuilder String Unit)
        "bookstore" ∧
    scenarioCatalog.GetResolvableServiceEndpoints "catalog" ≠
      otherCatalog.GetResolvableServiceEndpoints "catalog" :=
  ⟨(@builders_deterministic String Unit (String × String)).1 _ _ "bookstore" () rfl rfl rfl rfl rfl (by decide) (by decide),
   (@builders_deterministic String Unit (String × String)).2 scenarioBuilder ⟨otherCatalog, ()⟩ "bookstore" (by decide),
   by decide⟩

end Determinism

/-! ## The loops of `IP.String` stop within their bounds

Each loop of `IP.String` advances its index by at least 2 and stops at 16, so the 8
iterations the definitions allow are all it can take: allowing more changes nothing. -/

section LoopBounds

theorem zeroRunEnd_done (p : IP) (n j : Nat) (h : IPv6len ≤ j) : zeroRunEnd p n j = j := by
  cases n with
  | zero => rfl
  | succ n => simp [zeroRunEnd, Nat.not_lt.mpr h]

theorem zeroRunEnd_fuel (p : IP) : ∀ (n j k : Nat), IPv6len ≤ j + 2 * n →
    zeroRunEnd p (n + k) j = zeroRunEnd p n j := by
  intro n
  induction n with
  | zero => intro j k h; simpa [zeroRunEnd] using zeroRunEnd_done p k j (by simpa using h)
  | succ n ih =>
    intro j k h
    rw [show n + 1 + k = (n + k) + 1 by omega]
    simp only [zeroRunEnd]
    split
    · exact ih _ _ (by omega)
    · rfl

theorem longestZeroRun_done (p : IP) (n i : Nat) (e : Int × Int) (h : IPv6len ≤ i) :
    longestZeroRun p n i e = e := by
  cases n with
  | zero => rfl
  | succ n => simp [longestZeroRun, Nat.not_lt.mpr h]

theorem longestZeroRun_fuel (p : IP) : ∀ (n i k : Nat) (e : Int × Int), IPv6len ≤ i + 2 * n →
    longestZeroRun p (n + k) i e = longestZeroRun p n i e := by
  intro n
  induction n with
  | zero => intro i k e h; simpa [longestZeroRun] using longestZeroRun_done p k i e (by simpa using h)
  | succ n ih =>
    intro i k e h
    rw [show n + 1 + k = (n + k) + 1 by omega]
    simp only [longestZeroRun]
    split
    · split
      · rename_i hj
        exact ih _ _ _ (by omega)
      · exact ih _ _ _ (by omega)
    · rfl

theorem printGroups_done (p : IP) (e0 e1 : Int) (n i : Nat) (b : List Char) (h : IPv6len ≤ i) :
    printGroups p e0 e1 n i b = b := by
  cases n with
  | zero => rfl
  | succ n => simp [printGroups, Nat.not_lt.mpr h]

theorem printGroups_fuel (p : IP) (e0 e1 : Int) (he : e0 < 0 ∨ e0 < e1) : ∀ (n i k : Nat) (b : List Char),
    IPv6len ≤ i + 2 * n → printGroups p e0 e1 (n + k) i b = printGroups p e0 e1 n i b := by
  intro n
  induction n with
  | zero => intro i k b h; simpa [printGroups] using printGroups_done p e0 e1 k i b (by simpa using h)
  | succ n ih =>
    intro i k b h
    rw [show n + 1 + k = (n + k) + 1 by omega]
    simp only [printGroups]
    split
    · split
      · split
        · rfl
        · exact ih _ _ _ (by omega)
      · split
        · exact ih _ _ _ (by omega)
        · exact ih _ _ _ (by omega)
    · rfl

theorem longestZeroRun_run (p : IP) : ∀ (n i : Nat) (e : Int × Int), (e.1 < 0 ∨ e.1 < e.2) →
    ((longestZeroRun p n i e).1 < 0 ∨ (longestZeroRun p n i e).1 < (longestZeroRun p n i e).2) := by
  intro n
  induction n with
  | zero => intro i e h; simpa [longestZeroRun] using h
  | succ n ih =>
    intro i e h
    simp only [longestZeroRun]
    split
    · split
      · rename_i hj
        exact ih _ _ (Or.inr (by simpa using hj.1))
      · exact ih _ _ h
    · exact h

/-- The text `colonHex` writes is the one the loops write when allowed any number of
further iterations. -/
theorem colonHex_fuel (p : IP) (k₁ k₂ : Nat) :
    printGroups p
      (if (longestZeroRun p (8 + k₁) 0 (-1, -1)).2 - (longestZeroRun p (8 + k₁) 0 (-1, -1)).1 ≤ 2
        then ((-1 : Int), (-1 : Int)) else longestZeroRun p (8 + k₁) 0 (-1, -1)).1
      (if (longestZeroRun p (8 + k₁) 0 (-1, -1)).2 - (longestZeroRun p (8 + k₁) 0 (-1, -1)).1 ≤ 2
        then ((-1 : Int), (-1 : Int)) else longestZeroRun p (8 + k₁) 0 (-1, -1)).2
      (8 + k₂) 0 [] = colonHex p := by
  rw [longestZeroRun_fuel p 8 0 k₁ _ (by decide)]
  unfold colonHex
  apply printGroups_fuel
  · split
    · exact Or.inl (by decide)
    · exact longestZeroRun_run p 8 0 _ (Or.inl (by decide))
  · decide

end LoopBounds

/-! ## Lemmas on the text of an address -/

section AddressText

theorem digit_toNat : ∀ k, k < 10 → (Char.ofNat (k + 48)).toNat = k + 48 := by decide

theorem digit_ne_dot : ∀ k, k < 10 → Char.ofNat (k + 48) ≠ '.' := by decide

/-- Reading the digits `ubtoa` writes gives the byte back. -/
theorem digitsValue_ubtoa (v : byte) : digitsValue (ubtoa v) = v.val := by
  have hv := v.isLt
  unfold ubtoa
  split
  · simp [digitsValue, digit_toNat _ (by omega : v.val < 10)]
  · split
    · simp [digitsValue, digit_toNat _ (by omega : v.val / 10 < 10),
        digit_toNat _ (by omega : v.val % 10 < 10)]
      omega
    · simp [digitsValue, digit_toNat _ (by omega : v.val / 100 < 10),
        digit_toNat _ (by omega : v.val / 10 % 10 < 10), digit_toNat _ (by omega : v.val % 10 < 10)]
      omega

theorem ubtoa_injective (v w : byte) (h : ubtoa v = ubtoa w) : v = w := by
  apply Fin.ext
  rw [← digitsValue_ubtoa v, ← digitsValue_ubtoa w, h]

theorem ubtoa_noDot (v : byte) : '.' ∉ ubtoa v := by
  have hv := v.isLt
  unfold ubtoa
  split
  · simp [(digit_ne_dot _ (by omega : v.val < 10)).symm]
  · split
    · simp [(digit_ne_dot _ (by omega : v.val / 10 < 10)).symm,
        (digit_ne_dot _ (by omega : v.val % 10 < 10)).symm]
    · simp [(digit_ne_dot _ (by omega : v.val / 100 < 10)).symm,
        (digit_ne_dot _ (by omega : v.val / 10 % 10 < 10)).symm,
        (digit_ne_dot _ (by omega : v.val % 10 < 10)).symm]

/-- Two lists that agree and are cut at the first occurrence of `x` agree on both
sides of the cut. -/
theorem split_at_first {α : Type} (x : α) : ∀ (l₁ l₂ r₁ r₂ : List α), x ∉ l₁ → x ∉ l₂ →
    l₁ ++ x :: r₁ = l₂ ++ x :: r₂ → l₁ = l₂ ∧ r₁ = r₂
  | [], [], r₁, r₂, _, _, h => by simpa using h
  | [], b :: l₂, r₁, r₂, _, h₂, h => by
    simp at h; simp [h.1] at h₂
  | a :: l₁, [], r₁, r₂, h₁, _, h => by
    simp at h; simp [h.1] at h₁
  | a :: l₁, b :: l₂, r₁, r₂, h₁, h₂, h => by
    simp at h h₁ h₂
    obtain ⟨h1, h2⟩ := split_at_first x l₁ l₂ r₁ r₂ h₁.2 h₂.2 h.2
    simp [h.1, h1, h2]

theorem length_four {α : Type} (l : List α) (h : l.length = 4) :
    ∃ a b c d, l = [a, b, c, d] := by
  match l, h with
  | [a, b, c, d], _ => exact ⟨a, b, c, d, rfl⟩

/-- The dotted-decimal text determines the four bytes. -/
theorem dotted_injective (p q : IP) (hp : p.length = 4) (hq : q.length = 4)
    (h : dotted p = dotted q) : p = q := by
  obtain ⟨a, b, c, d, rfl⟩ := length_four p hp
  obtain ⟨a2, b2, c2, d2, rfl⟩ := length_four q hq
  simp only [dotted, List.getD_cons_zero, List.getD_cons_succ] at h
  obtain ⟨h1, h⟩ := split_at_first '.' _ _ _ _ (ubtoa_noDot a) (ubtoa_noDot a2) h
  obtain ⟨h2, h⟩ := split_at_first '.' _ _ _ _ (ubtoa_noDot b) (ubtoa_noDot b2) h
  obtain ⟨h3, h4⟩ := split_at_first '.' _ _ _ _ (ubtoa_noDot c) (ubtoa_noDot c2) h
  rw [ubtoa_injective _ _ h1, ubtoa_injective _ _ h2, ubtoa_injective _ _ h3,
    ubtoa_injective _ _ h4]

theorem dot_mem_dotted (p : IP) : '.' ∈ dotted p := by
  simp [dotted]

theorem hexDigit_ne_dot (n : Nat) : hexDigit n ≠ '.' := by
  unfold hexDigit
  rcases Nat.lt_or_ge n 16 with h | h
  · interval_cases n <;> decide
  · rw [List.getD_eq_default _ _ (by simpa using h)]
    decide

theorem appendHex_noDot (dst : List Char) (i : Nat) (h : '.' ∉ dst) : '.' ∉ appendHex dst i := by
  have step : ∀ (js : List Nat) (dst : List Char), '.' ∉ dst →
      '.' ∉ js.foldl (fun dst j =>
        if i >>> (j * 4) > 0 then dst ++ [hexDigit ((i >>> (j * 4)) &&& 0xf)] else dst) dst := by
    intro js
    induction js with
    | nil => intro dst hd; simpa using hd
    | cons j js ih =>
      intro dst hd
      simp only [List.foldl_cons]
      apply ih
      split
      · simp [hd, (hexDigit_ne_dot _).symm]
      · exact hd
  unfold appendHex
  split
  · simp [h]
  · exact step _ _ h

theorem printGroups_noDot (p : IP) (e0 e1 : Int) :
    ∀ (n i : Nat) (b : List Char), '.' ∉ b → '.' ∉ printGroups p e0 e1 n i b := by
  intro n
  induction n with
  | zero => intro i b hb; simpa [printGroups] using hb
  | succ n ih =>
    intro i b hb
    simp only [printGroups]
    split
    · split
      · split
        · simp [hb]
        · exact ih _ _ (appendHex_noDot _ _ (by simp [hb]))
      · split
        · exact ih _ _ (appendHex_noDot _ _ (by simp [hb]))
        · exact ih _ _ (appendHex_noDot _ _ hb)
    · exact hb

/-- The colon-hexadecimal text has no dot in it. -/
theorem colonHex_noDot (p : IP) : '.' ∉ colonHex p := by
  unfold colonHex
  exact printGroups_noDot _ _ _ _ _ _ (by simp)

/-- Four bytes are determined by the number they spell. -/
theorem addressValue_injective (p q : IP) (hp : p.length = 4) (hq : q.length = 4)
    (h : addressValue p = addressValue q) : p = q := by
  obtain ⟨a, b, c, d, rfl⟩ := length_four p hp
  obtain ⟨a2, b2, c2, d2, rfl⟩ := length_four q hq
  simp only [addressValue, List.foldl_cons, List.foldl_nil] at h
  have := a.isLt; have := b.isLt; have := c.isLt; have := d.isLt
  have := a2.isLt; have := b2.isLt; have := c2.isLt; have := d2.isLt
  have ha : a = a2 := Fin.ext (by omega)
  have hb : b = b2 := Fin.ext (by omega)
  have hc : c = c2 := Fin.ext (by omega)
  have hd : d = d2 := Fin.ext (by omega)
  rw [ha, hb, hc, hd]

/-- The string form of an IPv4 address is the dotted-decimal text of its four bytes. -/
theorem string_of_ipv4 (ip : IP) (h : ip.To4.length = 4) :
    ip.String = String.mk (dotted ip.To4) := by
  have hlen : ip.length ≠ 0 := by
    intro h0
    have : ip = [] := List.length_eq_zero.mp h0
    subst this
    simp [IP.To4, IPv4len, IPv6len] at h
  simp [IP.String, hlen, h, IPv4len]

/-- The range built for an IPv4 endpoint covers the endpoint's address and no other. -/
theorem covers_rangeOf_ipv4 (e : Endpoint) (h : e.IP.To4.length = 4) (d : IP) :
    (rangeOf e).covers d ↔ d = e.IP.To4 := by
  constructor
  · rintro ⟨a, ha, htext, hlen, hval⟩
    simp only [rangeOf, string_of_ipv4 _ h] at htext
    have ha4 : a.length = 4 := by
      by_contra hne
      simp only [addressText, IPv4len, hne, if_false] at htext
      have hdata : colonHex a = dotted e.IP.To4 := congrArg String.data htext
      exact colonHex_noDot a (hdata ▸ dot_mem_dotted _)
    simp only [addressText, IPv4len, ha4, if_true] at htext
    have htext : dotted a = dotted e.IP.To4 := congrArg String.data htext
    have haq : a = e.IP.To4 := dotted_injective a _ ha4 h htext
    simp only [CidrRange.prefixLength, rangeOf, singleIpv4Mask, ha4, Nat.sub_self, pow_zero,
      Nat.div_one] at hval
    rw [← haq]
    exact addressValue_injective d a (hlen.trans ha4) ha4 hval
  · rintro rfl
    refine ⟨e.IP.To4, Or.inl h, ?_, rfl, rfl⟩
    simp [addressText, IPv4len, h, rangeOf, string_of_ipv4 _ h]

end AddressText

/-! ## The coverage of an emitted range -/

section Coverage

variable {MeshService Configurator Message : Type}

/-- C8, as amended.  For every endpoint the resolver returns whose IP is an IPv4
address (in 4-byte form or in 16-byte IPv4-mapped form), the range
`getOutboundHTTPFilterChainMatchForService` emits for it is an exact host match: the
destination addresses the range covers are exactly the one address of the endpoint. -/
theorem outbound_range_exact_host_ipv4
    (lb : listenerBuilder MeshService Configurator) (dstSvc : MeshService)
    (endpoints : List Endpoint)
    (hres : lb.meshCatalog.GetResolvableServiceEndpoints dstSvc = (endpoints, none))
    (i : Nat) (hi : i < endpoints.length)
    (hv4 : (endpoints[i]).IP.To4.length = IPv4len) :
    ∃ m r, getOutboundHTTPFilterChainMatchForService lb dstSvc = (some m, none) ∧
      m.PrefixRanges[i]? = some r ∧
      ∀ d, r.covers d ↔ d = (endpoints[i]).address := by
  have hne : endpoints ≠ [] := by
    intro h0; subst h0; simp at hi
  refine ⟨_, rangeOf endpoints[i], outbound_of_endpoints lb dstSvc endpoints hres hne, ?_, ?_⟩
  · simp [hi]
  · intro d
    rw [Endpoint.address, if_pos hv4]
    exact covers_rangeOf_ipv4 _ hv4 d

/-- Witness of C8 as amended: `bookstore` resolving to 10.0.0.5 and 10.0.0.6; the
second range covers 10.0.0.6 and nothing else. -/
theorem outbound_range_exact_host_ipv4_witness :
    ∃ m r, getOutboundHTTPFilterChainMatchForService scenarioBuilder "bookstore" = (some m, none) ∧
      m.PrefixRanges[1]? = some r ∧
      ∀ d, r.covers d ↔ d = [10, 0, 0, 6] :=
  outbound_range_exact_host_ipv4 scenarioBuilder "bookstore"
    [⟨[10, 0, 0, 5]⟩, ⟨[10, 0, 0, 6]⟩] (by decide) 1 (by decide) (by decide)

/-- C8 as stated fails.  For the endpoint `2001:db8::1` the emitted range is
`2001:db8::1/32`, which covers the address `2001:db8:ffff:ffff:ffff:ffff:ffff:ffff`,
an address that is not the endpoint's. -/
theorem outbound_range_ipv6_not_exact :
    getOutboundHTTPFilterChainMatchForService (⟨ipv6Catalog, ()⟩ : listenerBuilder String Unit)
        "bookstore" =
      (some ⟨[⟨"2001:db8::1", some ⟨32⟩⟩], [], "", ["http/1.0", "http/1.1", "h2c"]⟩, none) ∧
    CidrRange.covers ⟨"2001:db8::1", some ⟨32⟩⟩
      [0x20, 0x01, 0x0d, 0xb8, 0xff, 0xff, 0xff, 0xff, 0xff, 0xff, 0xff, 0xff, 0xff, 0xff, 0xff, 0xff] ∧
    [0x20, 0x01, 0x0d, 0xb8, 0xff, 0xff, 0xff, 0xff, 0xff, 0xff, 0xff, 0xff, 0xff, 0xff, 0xff, 0xff] ≠
      Endpoint.address ⟨[0x20, 0x01, 0x0d, 0xb8, 0, 0, 0, 0, 0, 0, 0, 0, 0, 0, 0, 1]⟩ := by
  refine ⟨by decide, ?_, by decide⟩
  exact ⟨[0x20, 0x01, 0x0d, 0xb8, 0, 0, 0, 0, 0, 0, 0, 0, 0, 0, 0, 1], Or.inr (by decide),
    by decide, by decide, by decide⟩

end Coverage

end lds
